import Mathlib

/-!
Shallow embedding of the Clean Slate participant store server
(`src/server.js`), an Express.js application holding an in-memory list
`participants` and a counter `participantIdCounter`.

Modelling conventions:
* A participant record is a structure over the fields the server reads
  (`id`, `name`, `congressionalOffice`, `audienceProfile`, `primaryConcern`,
  `adjectives`, `priorities`, `selectedTraits`, `timestamp`); fields a
  client may omit are `Option`s (`none` = the JavaScript `undefined`).
* The mutable globals become `StoreState`; every request handler is a
  function `StoreState → ... → StoreState × Resp`, returning the state
  after the request together with the HTTP response.
* `new Date().toISOString()` and `Date.now()` are modelled by an explicit
  `now : String` argument (the current time as a string).
* JavaScript number/string primitives used by the server are embedded
  exactly: `String.prototype.split` on a one-character separator
  (`jsSplit`), substring containment (`jsIncludes`), template-literal
  stringification of `undefined` (`jsStr`), `parseInt` (`parseIntJs`),
  and `Math.round` of a nonnegative quotient (`jsRoundDiv`).
-/

/-- A participant record as stored by the server: the fields the server
reads, with `Option` for fields a client may omit.  `timestamp` is always
set by the server (`timestamp: new Date().toISOString()`). -/
structure Participant where
  id : Int
  name : Option String
  congressionalOffice : Option String
  audienceProfile : Option String
  primaryConcern : Option String
  adjectives : Option (List String)
  priorities : Option (List String)
  selectedTraits : Option (List String)
  timestamp : String

deriving instance DecidableEq for Participant

deriving instance Repr for Participant

/-- A client request body for `POST /api/participants` (`req.body`): the
same field names, all optional, including possible client-supplied `id`
and `timestamp` entries. -/
structure Body where
  id : Option Int
  name : Option String
  congressionalOffice : Option String
  audienceProfile : Option String
  primaryConcern : Option String
  adjectives : Option (List String)
  priorities : Option (List String)
  selectedTraits : Option (List String)
  timestamp : Option String

deriving instance DecidableEq for Body

/-- The server's mutable globals:
`let participants = []; let participantIdCounter = 1;`. -/
structure StoreState where
  participants : List Participant
  participantIdCounter : Int

deriving instance DecidableEq for StoreState

/-- The initial store state. -/
def initState : StoreState := ⟨[], 1⟩

/-- Statistics object built by `GET /api/statistics`.  The two
distributions are modelled as count functions on (JavaScript object) keys. -/
structure Stats where
  totalParticipants : Nat
  uniqueOffices : Nat
  profileDistribution : String → Nat
  concernDistribution : String → Nat
  avgTraitsSelected : Nat
  completionRate : Nat
  lastUpdated : String

/-- Response bodies the server can produce. -/
inductive RespBody where
  | records (ps : List Participant)
  | record (p : Participant)
  | error (msg : String)
  | stats (st : Stats)
  | msg (m : String)
  | csvText (t : String)
  | healthB (participantCount : Nat)

/-- An HTTP response: status code and body. -/
structure Resp where
  status : Nat
  body : RespBody

/-- Extract the participant from a `record` response, if it is one. -/
def recordOf (r : Resp) : Option Participant :=
  match r.body with
  | RespBody.record p => some p
  | _ => none

/-! ## JavaScript string primitives -/

/-- JavaScript `String(x)` / template-literal rendering of a possibly
`undefined` string: `undefined` prints as the literal text `undefined`. -/
def jsStr : Option String → String
  | none => "undefined"
  | some s => s

/-- Core of `String.prototype.split` with a one-character separator, on
character lists: splits at every occurrence, keeping empty segments
(so `"".split(c) = [""]`, `"a|".split('|') = ["a", ""]`). -/
def splitCharList (sep : Char) : List Char → List (List Char)
  | [] => [[]]
  | c :: cs =>
    if c = sep then [] :: splitCharList sep cs
    else
      match splitCharList sep cs with
      | [] => [[c]]
      | seg :: rest => (c :: seg) :: rest

/-- JavaScript `s.split(sep)` for a one-character separator. -/
def jsSplit (s : String) (sep : Char) : List String :=
  (splitCharList sep s.data).map String.mk

/-- Does `hay` start with `needle`? (character-list level). -/
def startsWithB : List Char → List Char → Bool
  | _, [] => true
  | [], _ :: _ => false
  | a :: as, b :: bs => a = b && startsWithB as bs

/-- Does `hay` contain `needle` as a contiguous run? (character-list level). -/
def containsRunB : List Char → List Char → Bool
  | hay, needle =>
    startsWithB hay needle ||
      match hay with
      | [] => false
      | _ :: t => containsRunB t needle

/-- JavaScript `s.includes(sub)`: substring containment. -/
def jsIncludes (s sub : String) : Bool :=
  containsRunB s.data sub.data

/-- JavaScript whitespace accepted by `parseInt` (ASCII subset modelled). -/
def isJsSpace (c : Char) : Bool :=
  c = ' ' || c = '\t' || c = '\n' || c = '\r' || c = '\x0b' || c = '\x0c'

/-- Decimal digit value. -/
def decDigit? (c : Char) : Option Nat :=
  if '0' ≤ c ∧ c ≤ '9' then some (c.toNat - '0'.toNat) else none

/-- Hexadecimal digit value. -/
def hexDigit? (c : Char) : Option Nat :=
  if '0' ≤ c ∧ c ≤ '9' then some (c.toNat - '0'.toNat)
  else if 'a' ≤ c ∧ c ≤ 'f' then some (c.toNat - 'a'.toNat + 10)
  else if 'A' ≤ c ∧ c ≤ 'F' then some (c.toNat - 'A'.toNat + 10)
  else none

/-- Value of the longest digit run at the front of `cs`; `none` when there
is no digit at all (JavaScript `NaN`). -/
def leadingDigits (f : Char → Option Nat) (base : Nat) (cs : List Char) : Option Nat :=
  let ds := cs.takeWhile (fun c => (f c).isSome)
  if ds.isEmpty then none
  else some (ds.foldl (fun acc c => acc * base + (f c).getD 0) 0)

/-- JavaScript `parseInt(s)` (no explicit radix): skip leading whitespace,
optional sign, `0x`/`0X` switches to base 16, then the longest digit
prefix; `none` models `NaN`.  (Exact integer arithmetic; the float
precision loss of huge JavaScript numbers is not modelled.) -/
def parseIntJs (s : String) : Option Int :=
  let cs := s.data.dropWhile isJsSpace
  let signAndRest : Int × List Char :=
    match cs with
    | '-' :: t => (-1, t)
    | '+' :: t => (1, t)
    | t => (1, t)
  let digits : Option Nat :=
    match signAndRest.2 with
    | '0' :: x :: t =>
      if x = 'x' ∨ x = 'X' then leadingDigits hexDigit? 16 t
      else leadingDigits decDigit? 10 signAndRest.2
    | t => leadingDigits decDigit? 10 t
  digits.map (fun n => signAndRest.1 * n)

/-- JavaScript `Math.round (t / n)` for naturals `t`, `n` (`n > 0`):
round half up, computed as `⌊(2 t + n) / (2 n)⌋` in natural division. -/
def jsRoundDiv (t n : Nat) : Nat :=
  (2 * t + n) / (2 * n)

/-! ## Request handlers -/

/-- `GET /api/participants`: `res.json(participants)`. -/
def listAllH (s : StoreState) : StoreState × Resp :=
  (s, ⟨200, RespBody.records s.participants⟩)

/-- `GET /api/participants/:id`:
`participants.find(p => p.id === parseInt(req.params.id))`, 404 with
`{error: 'Participant not found'}` when absent (`NaN` compares unequal
to every id). -/
def getByIdH (s : StoreState) (idStr : String) : StoreState × Resp :=
  match s.participants.find? (fun p => parseIntJs idStr = some p.id) with
  | some p => (s, ⟨200, RespBody.record p⟩)
  | none => (s, ⟨404, RespBody.error "Participant not found"⟩)

/-- The record built by `POST /api/participants`:
`{ id: participantIdCounter++, ...req.body, timestamp: new Date().toISOString() }`.
Object-spread semantics: the spread of `req.body` comes after the `id`
property, so a client-supplied `id` overrides the counter value; the
literal `timestamp` property comes after the spread, so the server's
timestamp overrides any client-supplied one. -/
def mkRecord (counter : Int) (b : Body) (now : String) : Participant :=
  { id := b.id.getD counter
    name := b.name
    congressionalOffice := b.congressionalOffice
    audienceProfile := b.audienceProfile
    primaryConcern := b.primaryConcern
    adjectives := b.adjectives
    priorities := b.priorities
    selectedTraits := b.selectedTraits
    timestamp := now }

/-- `POST /api/participants`: builds the record, `participants.push(...)`,
increments the counter (the `++` in `participantIdCounter++` happens
regardless of the spread), responds 201 with the created record. -/
def createH (s : StoreState) (b : Body) (now : String) : StoreState × Resp :=
  let p := mkRecord s.participantIdCounter b now
  (⟨s.participants ++ [p], s.participantIdCounter + 1⟩, ⟨201, RespBody.record p⟩)

/-- Office key used by the statistics: `p.congressionalOffice?.split('|')[0]`
(`none` when the field is absent; `split` never returns an empty array,
so index 0 always exists when the field is present). -/
def officeKey (p : Participant) : Option String :=
  p.congressionalOffice.map (fun s => (jsSplit s '|').headD "")

/-- One step of `dist[key] = (dist[key] || 0) + 1`. -/
def bumpKey (d : String → Nat) (k : String) : String → Nat :=
  fun k2 => if k2 = k then d k + 1 else d k2

/-- The distribution object built by
`participants.forEach(p => dist[f(p)] = (dist[f(p)] || 0) + 1)`,
starting from the empty object. -/
def buildDist (ps : List Participant) (f : Participant → String) : String → Nat :=
  ps.foldl (fun d p => bumpKey d (f p)) (fun _ => 0)

/-- JavaScript object-key coercion of a field used as an index:
`obj[p.audienceProfile]` stringifies `undefined` to the key `"undefined"`. -/
def jsKey (o : Option String) : String := jsStr o

/-- `totalTraits`: `participants.reduce((sum, p) => sum + (p.selectedTraits?.length || 0), 0)`. -/
def totalTraits (ps : List Participant) : Nat :=
  ps.foldl (fun sum p => sum + ((p.selectedTraits.map List.length).getD 0)) 0

/-- `GET /api/statistics` response object (field by field from the code):
`uniqueOffices` is `[...new Set(participants.map(p => p.congressionalOffice?.split('|')[0]))].length`,
the distributions are built by the `forEach`, and `avgTraitsSelected`
is `Math.round(totalTraits / participants.length)` when nonempty. -/
def computeStats (ps : List Participant) (now : String) : Stats :=
  { totalParticipants := ps.length
    uniqueOffices := ((ps.map officeKey).dedup).length
    profileDistribution := buildDist ps (fun p => jsKey p.audienceProfile)
    concernDistribution := buildDist ps (fun p => jsKey p.primaryConcern)
    avgTraitsSelected :=
      if ps.length = 0 then 0 else jsRoundDiv (totalTraits ps) ps.length
    completionRate := 100
    lastUpdated := now }

/-- `GET /api/statistics` handler. -/
def statisticsH (s : StoreState) (now : String) : StoreState × Resp :=
  (s, ⟨200, RespBody.stats (computeStats s.participants now)⟩)

/-- `GET /api/participants/office/:office`:
`participants.filter(p => p.congressionalOffice?.includes(req.params.office))`;
records with an absent field yield `undefined`, which is falsy. -/
def officeH (s : StoreState) (office : String) : StoreState × Resp :=
  (s, ⟨200, RespBody.records (s.participants.filter (fun p =>
    match p.congressionalOffice with
    | some o => jsIncludes o office
    | none => false))⟩)

/-- `GET /api/participants/profile/:profile`:
`participants.filter(p => p.audienceProfile === req.params.profile)`
(strict equality; `undefined === string` is false). -/
def profileH (s : StoreState) (profile : String) : StoreState × Resp :=
  (s, ⟨200, RespBody.records (s.participants.filter (fun p =>
    p.audienceProfile = some profile))⟩)

/-- Per-record search string of the search handler:
``${p.name} ${p.congressionalOffice} ${p.audienceProfile}``, lower-cased;
absent fields stringify to the literal text `undefined`. -/
def searchString (p : Participant) : String :=
  (jsStr p.name ++ " " ++ jsStr p.congressionalOffice ++ " " ++
    jsStr p.audienceProfile).toLower

/-- The search handler function (`GET /api/participants/search`):
`if (!q) return res.json(participants)` (absent or empty `q` is falsy),
otherwise filter by lower-cased substring containment. -/
def searchH (s : StoreState) (q : Option String) : StoreState × Resp :=
  match q with
  | none => (s, ⟨200, RespBody.records s.participants⟩)
  | some qs =>
    if qs = "" then (s, ⟨200, RespBody.records s.participants⟩)
    else
      (s, ⟨200, RespBody.records (s.participants.filter (fun p =>
        jsIncludes (searchString p) qs.toLower))⟩)

/-- `DELETE /api/participants`:
`participants = []; participantIdCounter = 1;` then a 200 message. -/
def clearH (_s : StoreState) : StoreState × Resp :=
  (⟨[], 1⟩, ⟨200, RespBody.msg "All participants deleted"⟩)

/-- The office column of a CSV row:
`p.congressionalOffice?.split('|')[1] || 'Unknown'` — element 1 of the
split (the segment between the first and second `|`), with `undefined`
(field absent, or fewer than two segments) and the empty string both
falsy and replaced by `'Unknown'`. -/
def csvOffice (p : Participant) : String :=
  match p.congressionalOffice with
  | none => "Unknown"
  | some s =>
    match (jsSplit s '|').get? 1 with
    | none => "Unknown"
    | some seg => if seg = "" then "Unknown" else seg

/-- JavaScript `Array.prototype.join` with a separator string. -/
def joinSep (sep : String) : List String → String
  | [] => ""
  | [x] => x
  | x :: xs => x ++ sep ++ joinSep sep xs

/-- One CSV data row (the two `csv +=` template literals of the loop). -/
def csvRow (p : Participant) : String :=
  toString p.id ++ ",\"" ++ jsStr p.name ++ "\",\"" ++ csvOffice p ++ "\",\"" ++
    jsStr p.audienceProfile ++ "\",\"" ++ jsStr p.primaryConcern ++ "\",\"" ++
    joinSep ", " (p.adjectives.getD []) ++ "\",\"" ++
    joinSep "; " (p.priorities.getD []) ++ "\",\"" ++
    joinSep ", " (p.selectedTraits.getD []) ++ "\",\"" ++ p.timestamp ++ "\"\n"

/-- The CSV header row. -/
def csvHeader : String :=
  "ID,Name,Congressional Office,Profile,Primary Concern,Adjectives,Priorities,Selected Traits,Timestamp\n"

/-- `GET /api/export/csv` body: header line then one row per record, in
collection order, accumulated by `csv += ...`. -/
def exportCsv (ps : List Participant) : String :=
  ps.foldl (fun acc p => acc ++ csvRow p) csvHeader

/-- `GET /api/export/csv` handler (the `Content-Disposition` filename is
not part of the modelled response body). -/
def csvH (s : StoreState) (_now : String) : StoreState × Resp :=
  (s, ⟨200, RespBody.csvText (exportCsv s.participants)⟩)

/-- `GET /api/health`: participant count (process uptime not modelled). -/
def healthH (s : StoreState) : StoreState × Resp :=
  (s, ⟨200, RespBody.healthB s.participants.length⟩)

/-- Express dispatch of a GET request: the route layers in registration
order, each tried only when every earlier one failed to match.  The path
is given as its slash-separated segments; `q` is the `q` query parameter.
Note `/api/participants/:id` is registered before
`/api/participants/search`, so a one-segment suffix `search` is captured
as `:id` and the search branch below it is unreachable. -/
def dispatchGet (s : StoreState) (path : List String) (q : Option String)
    (now : String) : Option (StoreState × Resp) :=
  if path = ["api", "participants"] then some (listAllH s)
  else if path.length = 3 ∧ path.take 2 = ["api", "participants"] then
    some (getByIdH s (path.getD 2 ""))
  else if path = ["api", "statistics"] then some (statisticsH s now)
  else if path.length = 4 ∧ path.take 3 = ["api", "participants", "office"] then
    some (officeH s (path.getD 3 ""))
  else if path.length = 4 ∧ path.take 3 = ["api", "participants", "profile"] then
    some (profileH s (path.getD 3 ""))
  else if path = ["api", "participants", "search"] then some (searchH s q)
  else if path = ["api", "export", "csv"] then some (csvH s now)
  else if path = ["api", "health"] then some (healthH s)
  else none

/-- Run a sequence of create requests (body and server timestamp each). -/
def runCreates (s : StoreState) (reqs : List (Body × String)) : StoreState :=
  reqs.foldl (fun st r => (createH st r.1 r.2).1) s

/-! ## Helper lemmas -/

/-- `splitCharList` never returns an empty list, and its first segment is
the longest separator-free run at the front of the input. -/
theorem splitCharList_head (sep : Char) (l : List Char) :
    ∃ rest, splitCharList sep l = l.takeWhile (fun c => c ≠ sep) :: rest := by
  induction l with
  | nil => exact ⟨[], rfl⟩
  | cons c cs ih =>
    obtain ⟨rest, hr⟩ := ih
    by_cases h : c = sep
    · exact ⟨splitCharList sep cs, by simp [splitCharList, h]⟩
    · refine ⟨rest, ?_⟩
      simp [splitCharList, h, hr]

/-- The statistics office key is the substring of `congressionalOffice`
before the first `|` (the whole string when there is no `|`), and `none`
when the field is absent. -/
theorem officeKey_eq (p : Participant) :
    officeKey p = p.congressionalOffice.map
      (fun s => String.mk (s.data.takeWhile (fun c => c ≠ '|'))) := by
  cases hoc : p.congressionalOffice with
  | none => simp [officeKey, hoc]
  | some s =>
    obtain ⟨rest, hr⟩ := splitCharList_head '|' s.data
    simp [officeKey, hoc, jsSplit, hr]

/-- Counting with `bumpKey` from an arbitrary initial table. -/
theorem foldl_bump (ps : List Participant) (f : Participant → String)
    (d : String → Nat) (k : String) :
    (ps.foldl (fun d2 p => bumpKey d2 (f p)) d) k =
      d k + (ps.filter (fun p => f p = k)).length := by
  induction ps generalizing d with
  | nil => simp
  | cons p t ih =>
    simp only [List.foldl_cons, List.filter_cons]
    rw [ih]
    by_cases h : f p = k
    · simp [bumpKey, h]
      omega
    · simp [bumpKey, h, Ne.symm h]

/-- The distribution object counts, per key, the records mapped to it. -/
theorem buildDist_apply (ps : List Participant) (f : Participant → String)
    (k : String) :
    buildDist ps f k = (ps.filter (fun p => f p = k)).length := by
  simpa using foldl_bump ps f (fun _ => 0) k

/-- A left fold of addition equals the initial value plus the mapped sum. -/
theorem foldl_add_eq (f : Participant → Nat) (ps : List Participant) (n : Nat) :
    ps.foldl (fun a p => a + f p) n = n + (ps.map f).sum := by
  induction ps generalizing n with
  | nil => simp
  | cons p t ih => simp [ih]; omega

/-- `totalTraits` is the sum of the `selectedTraits` lengths (absent
sequences counting as length 0). -/
theorem totalTraits_eq_sum (ps : List Participant) :
    totalTraits ps = (ps.map (fun p => (p.selectedTraits.getD []).length)).sum := by
  have hfld : ∀ p : Participant,
      (p.selectedTraits.map List.length).getD 0 = (p.selectedTraits.getD []).length := by
    intro p; cases p.selectedTraits <;> rfl
  unfold totalTraits
  rw [foldl_add_eq]
  simp only [hfld, Nat.zero_add]

/-- `Math.round` of the quotient of naturals (round half up), as computed
by the server's natural-division formula, equals the mathematical
round-half-up of the exact rational quotient. -/
theorem jsRoundDiv_eq_round (t n : Nat) (hn : 0 < n) :
    (jsRoundDiv t n : ℤ) = round ((t : ℚ) / (n : ℚ)) := by
  have hn0 : (n : ℚ) ≠ 0 := Nat.cast_ne_zero.mpr (Nat.pos_iff_ne_zero.mp hn)
  have h1 : (t : ℚ) / (n : ℚ) + 1 / 2 = ((2 * t + n : ℕ) : ℚ) / ((2 * n : ℕ) : ℚ) := by
    push_cast
    field_simp
    ring
  have hx : (0 : ℚ) ≤ ((2 * t + n : ℕ) : ℚ) / ((2 * n : ℕ) : ℚ) := by positivity
  rw [round_eq, h1, ← Int.natCast_floor_eq_floor hx, Nat.floor_div_eq_div]
  rfl

/-- Running a sequence of creates whose bodies carry no client `id`:
the new records receive the consecutive counter values, appended in
order, and the counter advances by the number of requests. -/
theorem runCreates_ids (reqs : List (Body × String)) (s : StoreState)
    (h : ∀ r ∈ reqs, r.1.id = none) :
    (runCreates s reqs).participants.map Participant.id =
      s.participants.map Participant.id ++
        (List.range reqs.length).map (fun i : ℕ => s.participantIdCounter + (i : Int)) ∧
    (runCreates s reqs).participantIdCounter =
      s.participantIdCounter + reqs.length := by
  induction reqs generalizing s with
  | nil => simp [runCreates]
  | cons r t ih =>
    have hr : r.1.id = none := h r (by simp)
    have ht : ∀ x ∈ t, x.1.id = none := fun x hx => h x (by simp [hx])
    have hstep : runCreates s (r :: t) = runCreates (createH s r.1 r.2).1 t := rfl
    obtain ⟨h1, h2⟩ := ih (createH s r.1 r.2).1 ht
    have hshift : (List.range (t.length + 1)).map
          (fun i : ℕ => s.participantIdCounter + (i : Int)) =
        s.participantIdCounter ::
          (List.range t.length).map (fun i : ℕ => (s.participantIdCounter + 1) + (i : Int)) := by
      rw [List.range_succ_eq_map, List.map_cons, List.map_map]
      have hc : ((fun i : ℕ => s.participantIdCounter + (i : Int)) ∘ Nat.succ) =
          fun i : ℕ => (s.participantIdCounter + 1) + (i : Int) := by
        funext i
        simp only [Function.comp_apply, Nat.succ_eq_add_one]
        push_cast
        ring
      rw [hc]
      norm_num
    constructor
    · rw [hstep, h1, List.length_cons, hshift]
      simp only [createH, List.map_append, List.append_assoc]
      simp [mkRecord, hr]
    · rw [hstep, h2]
      simp only [createH, List.length_cons]
      push_cast
      ring

/-! ## Claim theorems -/

/-- Claim C1, counterexample: on the initial store (counter 1), a create
request whose body carries `id = 7` and a client `timestamp` stores and
returns a record with id 7, not the counter value 1 — the object spread
`{ id: counter++, ...req.body, timestamp: ... }` lets the client `id`
override the store's.  (The timestamp, set after the spread, is the
store's `"T1"`.) -/
theorem C1_counterexample :
    recordOf (createH initState
        ⟨some 7, none, none, none, none, none, none, none, some "T0"⟩ "T1").2 =
      some ⟨7, none, none, none, none, none, none, none, "T1"⟩ ∧
    initState.participantIdCounter = 1 ∧ (7 : Int) ≠ 1 := by
  exact ⟨rfl, rfl, by decide⟩

/-- Claim C1 (amended): for every create request, the stored and returned
record's `timestamp` is the store-assigned creation time (a client
`timestamp` is overwritten), and its `id` is the store's counter value
when the client field map has no `id` entry; a client-supplied `id`,
however, overrides the counter value in the stored record.  The counter
increments either way. -/
theorem C1_create_assigns (s : StoreState) (b : Body) (now : String)
    (p : Participant) (hp : recordOf (createH s b now).2 = some p) :
    p.timestamp = now ∧
    (b.id = none → p.id = s.participantIdCounter) ∧
    (∀ j, b.id = some j → p.id = j) ∧
    (createH s b now).1.participants = s.participants ++ [p] ∧
    (createH s b now).1.participantIdCounter = s.participantIdCounter + 1 := by
  have hp2 : p = mkRecord s.participantIdCounter b now := by
    simp only [createH, recordOf] at hp
    exact (Option.some.inj hp).symm
  subst hp2
  refine ⟨rfl, ?_, ?_, rfl, rfl⟩
  · intro hb
    simp [mkRecord, hb]
  · intro j hj
    simp [mkRecord, hj]

/-- Witness for C1 (amended): a concrete create on the initial store with
no client `id`; the record is stored with id 1 and the server's
timestamp. -/
theorem C1_create_assigns_witness :
    recordOf (createH initState
        ⟨none, some "A", none, none, none, none, none, none, some "T0"⟩ "T2").2 =
      some ⟨1, some "A", none, none, none, none, none, none, "T2"⟩ ∧
    (⟨1, some "A", none, none, none, none, none, none, "T2"⟩ : Participant).timestamp = "T2" ∧
    (⟨1, some "A", none, none, none, none, none, none, "T2"⟩ : Participant).id =
      initState.participantIdCounter := by
  have h := C1_create_assigns initState
      ⟨none, some "A", none, none, none, none, none, none, some "T0"⟩ "T2"
      ⟨1, some "A", none, none, none, none, none, none, "T2"⟩ rfl
  exact ⟨rfl, h.1, h.2.1 rfl⟩

/-- Claim C2 (code bug): a GET request for path `/api/participants/search`
is captured by the earlier-registered route `/api/participants/:id` with
`id = "search"`; `parseInt("search")` is `NaN`, which matches no record,
so the server answers 404 `{error: 'Participant not found'}` for every
store state and every query — the search handler (and the specified 200
behaviour) is unreachable. -/
theorem C2_search_route_shadowed (s : StoreState) (q : Option String) (now : String) :
    dispatchGet s ["api", "participants", "search"] q now =
      some (s, ⟨404, RespBody.error "Participant not found"⟩) := by
  have hroute : dispatchGet s ["api", "participants", "search"] q now =
      some (getByIdH s "search") := rfl
  have hparse : parseIntJs "search" = none := rfl
  have hfind : s.participants.find? (fun p => parseIntJs "search" = some p.id) = none := by
    rw [List.find?_eq_none]
    intro p _
    simp [hparse]
  rw [hroute]
  unfold getByIdH
  rw [hfind]

/-- Claim C3, counterexample: a single create request from the initial
state whose client field map contains `id = 5` stores a record with id 5,
so the assigned ids are `[5]`, not `[1]` — with arbitrary client field
maps the ids are not `1..N`. -/
theorem C3_counterexample :
    (runCreates initState
        [(⟨some 5, none, none, none, none, none, none, none, none⟩, "T1")]).participants.map
      Participant.id = [5] ∧ [(5 : Int)] ≠ [1] := by
  exact ⟨rfl, by decide⟩

/-- Claim C3 (amended): for every sequence of N create requests whose
client field maps contain no `id` entry, starting from the initial store
state, the assigned ids are exactly `1..N` in creation order — hence
strictly increasing, and no id value is reused within the sequence. -/
theorem C3_sequential_ids (reqs : List (Body × String))
    (h : ∀ r ∈ reqs, r.1.id = none) :
    (runCreates initState reqs).participants.map Participant.id =
      (List.range reqs.length).map (fun i : ℕ => 1 + (i : Int)) ∧
    List.Pairwise (fun a b : Int => a < b)
      ((runCreates initState reqs).participants.map Participant.id) := by
  have h0 := runCreates_ids reqs initState h
  have hids : (runCreates initState reqs).participants.map Participant.id =
      (List.range reqs.length).map (fun i : ℕ => 1 + (i : Int)) := by
    rw [h0.1]
    simp [initState]
  refine ⟨hids, ?_⟩
  rw [hids, List.pairwise_map]
  refine List.Pairwise.imp ?_ (List.pairwise_lt_range reqs.length)
  intro a b hab
  omega

/-- Claim C4: `uniqueOffices` is the number of distinct office keys over
all records, a record's office key being the part of
`congressionalOffice` before the first `|` (the whole string when there
is no `|`), with all records lacking the field sharing the single `none`
bucket (so they contribute at most one distinct value together). -/
theorem C4_unique_offices (ps : List Participant) (now : String) :
    (computeStats ps now).uniqueOffices =
      ((ps.map (fun p => p.congressionalOffice.map
        (fun s => String.mk (s.data.takeWhile (fun c => c ≠ '|'))))).toFinset).card := by
  have hmap : ps.map officeKey =
      ps.map (fun p => p.congressionalOffice.map
        (fun s => String.mk (s.data.takeWhile (fun c => c ≠ '|')))) := by
    exact List.map_congr_left (fun p _ => officeKey_eq p)
  simp only [computeStats]
  rw [List.card_toFinset, ← hmap]

/-- Participant A of the spec's statistics example:
`{name:"A", audienceProfile:"p1", primaryConcern:"c1", selectedTraits:["x","y"]}`. -/
def pExA : Participant :=
  ⟨1, some "A", none, some "p1", some "c1", none, none, some ["x", "y"], "TS1"⟩

/-- Participant B of the spec's statistics example:
`{name:"B", audienceProfile:"p1", primaryConcern:"c2", selectedTraits:["x"]}`. -/
def pExB : Participant :=
  ⟨2, some "B", none, some "p1", some "c2", none, none, some ["x"], "TS2"⟩

/-- Claim C5: `avgTraitsSelected` is 0 on an empty collection, and
otherwise the arithmetic mean of the `selectedTraits` lengths (absent
sequences counting as 0), rounded to the nearest integer (half up, like
`Math.round`); on the spec's two-record example with lengths 2 and 1 it
is `round(3/2) = 2`. -/
theorem C5_avg_traits (ps : List Participant) (now : String) :
    (ps = [] → (computeStats ps now).avgTraitsSelected = 0) ∧
    (ps ≠ [] → ((computeStats ps now).avgTraitsSelected : ℤ) =
      round (((ps.map (fun p => (p.selectedTraits.getD []).length)).sum : ℚ) /
        (ps.length : ℚ))) ∧
    (computeStats [pExA, pExB] now).avgTraitsSelected = 2 := by
  refine ⟨?_, ?_, ?_⟩
  · intro h
    simp [computeStats, h]
  · intro h
    have hn : 0 < ps.length := List.length_pos.mpr h
    have hne : ps.length ≠ 0 := Nat.pos_iff_ne_zero.mp hn
    simp only [computeStats, if_neg hne]
    rw [jsRoundDiv_eq_round (totalTraits ps) ps.length hn, totalTraits_eq_sum]
    norm_cast
    rw [List.map_map]
    simp [Function.comp_def]
  · rfl

/-- Witness for C5: the spec's two-record example is nonempty and its
average is `round(3/2)`. -/
theorem C5_avg_traits_witness :
    ([pExA, pExB] : List Participant) ≠ [] ∧
    (((computeStats [pExA, pExB] "TS").avgTraitsSelected : ℤ) =
      round ((([pExA, pExB].map (fun p => (p.selectedTraits.getD []).length)).sum : ℚ) /
        (([pExA, pExB] : List Participant).length : ℚ))) := by
  refine ⟨by simp, (C5_avg_traits [pExA, pExB] "TS").2.1 (by simp)⟩

/-- Claim C6, counterexample: a record whose `congressionalOffice` is the
present string `"abc"` (no `|`) gets Office column `Unknown`, although
the field is not absent — `split('|')[1]` is `undefined` and falls back
to `'Unknown'`, so `Unknown` does not appear exactly when the field is
absent. -/
theorem C6_counterexample :
    csvOffice ⟨3, some "N", some "abc", none, none, none, none, none, "T"⟩ = "Unknown" ∧
    (⟨3, some "N", some "abc", none, none, none, none, none, "T"⟩ : Participant).congressionalOffice ≠
      none := by
  exact ⟨rfl, by simp⟩

/-- Claim C6 (amended): the Office column is the second `|`-separated
segment of `congressionalOffice` (the part between the first and second
`|`) when the field is present, that segment exists and is non-empty;
it is the literal `Unknown` when the field is absent, when there is no
`|` (a single segment), or when the segment after the first `|` is
empty. -/
theorem C6_office_column (p : Participant) :
    (p.congressionalOffice = none → csvOffice p = "Unknown") ∧
    (∀ s a b rest, p.congressionalOffice = some s →
      jsSplit s '|' = a :: b :: rest → b ≠ "" → csvOffice p = b) ∧
    (∀ s a, p.congressionalOffice = some s → jsSplit s '|' = [a] →
      csvOffice p = "Unknown") ∧
    (∀ s a rest, p.congressionalOffice = some s →
      jsSplit s '|' = a :: "" :: rest → csvOffice p = "Unknown") := by
  refine ⟨?_, ?_, ?_, ?_⟩
  · intro h
    simp [csvOffice, h]
  · intro s a b rest hoc hsp hb
    simp [csvOffice, hoc, hsp, hb]
  · intro s a hoc hsp
    simp [csvOffice, hoc, hsp]
  · intro s a rest hoc hsp
    simp [csvOffice, hoc, hsp]

/-- Witness for C6 (amended): `"12|Smith"` splits into `["12", "Smith"]`,
the second segment is non-empty, and the Office column is `Smith`. -/
theorem C6_office_column_witness :
    jsSplit "12|Smith" '|' = ["12", "Smith"] ∧ ("Smith" : String) ≠ "" ∧
    csvOffice ⟨1, none, some "12|Smith", none, none, none, none, none, "T"⟩ = "Smith" := by
  refine ⟨by decide, by decide, ?_⟩
  exact (C6_office_column ⟨1, none, some "12|Smith", none, none, none, none, none, "T"⟩).2.1
    "12|Smith" "12" "Smith" [] rfl (by decide) (by decide)

/-- Claim C7: GetById leaves the store unchanged; when the path parameter
parses as an integer it answers 200 with the first record of that id,
and it answers 404 `{error: 'Participant not found'}` when the parameter
does not parse as an integer or no record matches. -/
theorem C7_get_by_id (s : StoreState) (idStr : String) :
    (getByIdH s idStr).1 = s ∧
    (parseIntJs idStr = none →
      (getByIdH s idStr).2 = ⟨404, RespBody.error "Participant not found"⟩) ∧
    (∀ n : Int, parseIntJs idStr = some n →
      (s.participants.find? (fun p => p.id = n) = none →
        (getByIdH s idStr).2 = ⟨404, RespBody.error "Participant not found"⟩) ∧
      (∀ p, s.participants.find? (fun p2 => p2.id = n) = some p →
        (getByIdH s idStr).2 = ⟨200, RespBody.record p⟩)) := by
  have hpred : ∀ n : Int, parseIntJs idStr = some n →
      (fun p : Participant => decide (parseIntJs idStr = some p.id)) =
        (fun p : Participant => decide (p.id = n)) := by
    intro n hn
    funext p
    apply decide_eq_decide.mpr
    rw [hn]
    constructor
    · intro h2
      exact (Option.some.inj h2).symm
    · intro h2
      rw [h2]
  cases hf : s.participants.find? (fun p => parseIntJs idStr = some p.id) with
  | none =>
    have hred1 : (getByIdH s idStr).1 = s := by simp [getByIdH, hf]
    have hred2 : (getByIdH s idStr).2 = ⟨404, RespBody.error "Participant not found"⟩ := by
      simp [getByIdH, hf]
    refine ⟨hred1, fun _ => hred2, ?_⟩
    intro n hn
    have hf2 := hf
    rw [hpred n hn] at hf2
    refine ⟨fun _ => hred2, ?_⟩
    intro p hp
    rw [hf2] at hp
    exact absurd hp (by simp)
  | some p0 =>
    have hred1 : (getByIdH s idStr).1 = s := by simp [getByIdH, hf]
    have hred2 : (getByIdH s idStr).2 = ⟨200, RespBody.record p0⟩ := by
      simp [getByIdH, hf]
    refine ⟨hred1, ?_, ?_⟩
    · intro hn
      have hnone : s.participants.find? (fun p => parseIntJs idStr = some p.id) = none := by
        rw [List.find?_eq_none]
        intro x _
        simp [hn]
      rw [hnone] at hf
      exact absurd hf (by simp)
    · intro n hn
      have hf2 := hf
      rw [hpred n hn] at hf2
      constructor
      · intro hnone
        rw [hnone] at hf2
        exact absurd hf2 (by simp)
      · intro p hp
        rw [hf2] at hp
        rw [← Option.some.inj hp]
        exact hred2

/-- Witness for C7: a store holding the single record with id 1; the path
parameter `"1"` parses to 1, the record is found, the response is 200
with it, and the store is unchanged. -/
theorem C7_get_by_id_witness :
    parseIntJs "1" = some 1 ∧
    (StoreState.mk [⟨1, some "A", none, none, none, none, none, none, "T"⟩] 2).participants.find?
      (fun p2 => p2.id = (1 : Int)) =
      some ⟨1, some "A", none, none, none, none, none, none, "T"⟩ ∧
    (getByIdH ⟨[⟨1, some "A", none, none, none, none, none, none, "T"⟩], 2⟩ "1").2 =
      ⟨200, RespBody.record ⟨1, some "A", none, none, none, none, none, none, "T"⟩⟩ ∧
    (getByIdH ⟨[⟨1, some "A", none, none, none, none, none, none, "T"⟩], 2⟩ "1").1 =
      ⟨[⟨1, some "A", none, none, none, none, none, none, "T"⟩], 2⟩ := by
  have h := C7_get_by_id ⟨[⟨1, some "A", none, none, none, none, none, none, "T"⟩], 2⟩ "1"
  exact ⟨by decide, by decide,
    (h.2.2 1 (by decide)).2 ⟨1, some "A", none, none, none, none, none, none, "T"⟩ (by decide), h.1⟩

/-- Claim C8: Clear always succeeds with the fixed message, empties the
collection (ListAll then returns the empty array), resets the counter to
1, and the next create whose body has no client `id` stores a record
with id 1. -/
theorem C8_clear (s : StoreState) (b : Body) (now : String) :
    (clearH s).1.participants = [] ∧
    (clearH s).1.participantIdCounter = 1 ∧
    (clearH s).2 = ⟨200, RespBody.msg "All participants deleted"⟩ ∧
    (listAllH (clearH s).1).2 = ⟨200, RespBody.records []⟩ ∧
    (b.id = none → ∀ p, recordOf (createH (clearH s).1 b now).2 = some p → p.id = 1) := by
  refine ⟨rfl, rfl, rfl, rfl, ?_⟩
  intro hb p hp
  have hre : recordOf (createH (clearH s).1 b now).2 = some (mkRecord 1 b now) := rfl
  rw [hre] at hp
  rw [← Option.some.inj hp]
  simp [mkRecord, hb]

/-- Witness for C8: clearing a nonempty store with counter 5, then
creating from a body without `id`, stores a record with id 1. -/
theorem C8_clear_witness :
    (⟨none, some "B", none, none, none, none, none, none, none⟩ : Body).id = none ∧
    recordOf (createH (clearH ⟨[⟨9, some "Z", none, none, none, none, none, none, "T0"⟩], 5⟩).1
        ⟨none, some "B", none, none, none, none, none, none, none⟩ "T9").2 =
      some ⟨1, some "B", none, none, none, none, none, none, "T9"⟩ ∧
    (⟨1, some "B", none, none, none, none, none, none, "T9"⟩ : Participant).id = 1 := by
  refine ⟨rfl, rfl, ?_⟩
  exact (C8_clear ⟨[⟨9, some "Z", none, none, none, none, none, none, "T0"⟩], 5⟩
      ⟨none, some "B", none, none, none, none, none, none, none⟩ "T9").2.2.2.2
    rfl ⟨1, some "B", none, none, none, none, none, none, "T9"⟩ rfl

/-- Claim C9: every read-only handler — ListAll, GetById, statistics,
office filter, profile filter, search, CSV export, health — returns the
store state unchanged (same participant list and id counter). -/
theorem C9_read_only_frame (s : StoreState) (idStr office profile now : String)
    (q : Option String) :
    (listAllH s).1 = s ∧ (getByIdH s idStr).1 = s ∧ (statisticsH s now).1 = s ∧
    (officeH s office).1 = s ∧ (profileH s profile).1 = s ∧ (searchH s q).1 = s ∧
    (csvH s now).1 = s ∧ (healthH s).1 = s := by
  refine ⟨rfl, ?_, rfl, rfl, rfl, ?_, rfl, rfl⟩
  · cases hf : s.participants.find? (fun p => parseIntJs idStr = some p.id) with
    | none => simp [getByIdH, hf]
    | some p0 => simp [getByIdH, hf]
  · cases q with
    | none => rfl
    | some qs =>
      by_cases hq : qs = ""
      · simp [searchH, hq]
      · simp [searchH, hq]

/-- Claim C10: in both distributions, a record with the field absent and
a record whose field is the literal string `"undefined"` are counted
under the same `"undefined"` key: the count at that key is the number of
records in either situation, so the distributions cannot tell them
apart. -/
theorem C10_undefined_key_collision (ps : List Participant) (now : String) :
    (computeStats ps now).profileDistribution "undefined" =
      (ps.filter (fun p =>
        p.audienceProfile = none ∨ p.audienceProfile = some "undefined")).length ∧
    (computeStats ps now).concernDistribution "undefined" =
      (ps.filter (fun p =>
        p.primaryConcern = none ∨ p.primaryConcern = some "undefined")).length := by
  have hkey : ∀ o : Option String,
      jsKey o = "undefined" ↔ (o = none ∨ o = some "undefined") := by
    intro o
    cases o with
    | none => simp [jsKey, jsStr]
    | some v => simp [jsKey, jsStr]
  constructor
  · simp only [computeStats]
    rw [buildDist_apply]
    have hfun : (fun p : Participant => decide (jsKey p.audienceProfile = "undefined")) =
        (fun p : Participant =>
          decide (p.audienceProfile = none ∨ p.audienceProfile = some "undefined")) := by
      funext p
      exact decide_eq_decide.mpr (hkey p.audienceProfile)
    rw [hfun]
  · simp only [computeStats]
    rw [buildDist_apply]
    have hfun : (fun p : Participant => decide (jsKey p.primaryConcern = "undefined")) =
        (fun p : Participant =>
          decide (p.primaryConcern = none ∨ p.primaryConcern = some "undefined")) := by
      funext p
      exact decide_eq_decide.mpr (hkey p.primaryConcern)
    rw [hfun]

/-- Witness for C3 (amended): two concrete create requests without client
`id` entries, from the initial state, store ids `[1, 2]`. -/
theorem C3_sequential_ids_witness :
    (∀ r ∈ ([(⟨none, some "A", none, none, none, none, none, none, none⟩, "T1"),
        (⟨none, some "B", none, none, none, none, none, none, none⟩, "T2")] :
          List (Body × String)), r.1.id = none) ∧
    (runCreates initState
        [(⟨none, some "A", none, none, none, none, none, none, none⟩, "T1"),
         (⟨none, some "B", none, none, none, none, none, none, none⟩, "T2")]).participants.map
      Participant.id = [1, 2] := by
  refine ⟨by decide, ?_⟩
  have h := C3_sequential_ids
      [(⟨none, some "A", none, none, none, none, none, none, none⟩, "T1"),
       (⟨none, some "B", none, none, none, none, none, none, none⟩, "T2")] (by decide)
  rw [h.1]
  decide
